import Mathlib

/-!
Verification development for the Aerith Admin MCP server (`server.py`).

The development shallowly embeds the instruction state machine
(`create_task_plan`, `gather_information`, `analyze_and_orchestrate`,
`execute_step`) and the directory tree renderer (`tree_directory` /
`generate_tree`) as pure Lean functions.  External capabilities
(filesystem reads/writes, subprocess execution, clock) are passed in as an
explicit `Env` record, matching the spec's "run external command" and
"read/write file" capability boundary.  Persistence is modelled by each
operation returning the document it writes back to disk as an
`Option Instruction` (`none` means the call returned without persisting).

Strings are Python `str` values; character-level operations are carried
out on `List Char`.  Numeric subtask complexities are modelled as `ℚ`
(Python's float arithmetic on the small integral values used by the
server is exact, and the claims are about exact arithmetic means).
-/

/-! ### Python string helpers -/

/-- Test whether `old` is a prefix of `s` (the scan step of Python's
`str.replace` and `in` operators). -/
def startsWithL (old s : List Char) : Bool :=
  s.take old.length == old

/-- Python substring containment, `old in s` (for non-degenerate `old`;
`server.py` only uses it with non-empty needles). -/
def hasOccur (old : List Char) : List Char → Bool
  | [] => old == []
  | c :: cs => startsWithL old (c :: cs) || hasOccur old cs

/-- Python `content.replace(old, new)`: scan left to right, replacing each
leftmost non-overlapping occurrence of `old` by `new`.  (`server.py` only
calls this with non-empty `old`; the `old = []` behaviour of this model is
the identity, unlike Python's empty-needle splice, which is unreachable in
the source because of the truthiness guard on `old_text`.) -/
def replaceAll (s old new : List Char) : List Char :=
  if old ≠ [] ∧ startsWithL old s then
    new ++ replaceAll (s.drop old.length) old new
  else
    match s with
    | [] => []
    | c :: cs => c :: replaceAll cs old new
termination_by s.length
decreasing_by
  · rename_i h
    have h1 : s.take old.length = old := by
      have := h.2
      simp only [startsWithL, beq_iff_eq] at this
      exact this
    have h2 : old.length ≤ s.length := by
      have := congrArg List.length h1
      simp at this
      omega
    have h3 : old.length ≠ 0 := by
      intro hc
      exact h.1 (List.eq_nil_of_length_eq_zero hc)
    simp only [List.length_drop]
    omega
  · simp

/-- Characters Python's `str.split()` (no separator) treats as whitespace
(the ASCII ones; the server's callers only pass ASCII command strings). -/
def isPySpace (c : Char) : Bool :=
  c == ' ' || c == '\t' || c == '\n' || c == '\r' || c == '\x0b' || c == '\x0c'

/-- Worker for `pySplit`: `cur` is the reversed current word. -/
def pySplitAux : List Char → List Char → List String
  | [], cur => if cur.isEmpty then [] else [String.mk cur.reverse]
  | c :: rest, cur =>
    if isPySpace c then
      if cur.isEmpty then pySplitAux rest [] else String.mk cur.reverse :: pySplitAux rest []
    else
      pySplitAux rest (c :: cur)

/-- Python `s.split()`: split on runs of whitespace, dropping empty tokens
(used by `gather_information`'s `command` source and by `execute_step`'s
`command_execution` when the command is a string). -/
def pySplit (s : String) : List String :=
  pySplitAux s.toList []

/-- Line-boundary characters of Python's `str.splitlines`. -/
def isLineBoundary (c : Char) : Bool :=
  c == '\n' || c == '\r' || c == '\x0b' || c == '\x0c' || c == '\x1c' ||
    c == '\x1d' || c == '\x1e' || c == '\x85' || c == '\u2028' || c == '\u2029'

mutual

/-- Number of lines of `len(content.splitlines())` (scanning at a line
start). -/
def countLines : List Char → Nat
  | [] => 0
  | '\r' :: '\n' :: rest => 1 + countLines rest
  | c :: rest => if isLineBoundary c then 1 + countLines rest else 1 + countLinesIn rest

/-- Number of further lines of `splitlines` when the scanner is inside an
already-counted line. -/
def countLinesIn : List Char → Nat
  | [] => 0
  | '\r' :: '\n' :: rest => countLines rest
  | c :: rest => if isLineBoundary c then countLines rest else countLinesIn rest

end

/-- Python truthiness of an optional string (`if x:` on a value obtained
from `dict.get`): `None` and `""` are falsy. -/
def pyTruthyOpt : Option String → Bool
  | none => false
  | some s => !(s == "")

/-- Python rendering of a possibly-`None` string in an f-string. -/
def pyShowOpt : Option String → String
  | none => "None"
  | some s => s

/-- Clamp an integer index the way a Python slice endpoint is clamped for a
sequence of length `n` (negative indices count from the end). -/
def pySliceIdx (n : Nat) (i : Int) : Nat :=
  if i < 0 then (i + n).toNat else min i.toNat n

/-! ### Capability environment (Command Runner / filesystem / clock) -/

/-- Result of `run_command` in `server.py`: subprocess capture that never
raises. -/
structure CmdResult where
  success : Bool
  output : String
  error : String
  returncode : Int

/-- External capabilities consumed by the state machine: raw filesystem
reads (`none` models an `open`/`read` that raises), the text of the raised
exception (for `read_file`'s error string), existence and directory tests,
directory listing (`Except` models an `os.listdir` that raises), the
Command Runner, the `os.walk` file enumeration of the project root, write
success, and the clock. -/
structure Env where
  fs : String → Option String
  readErr : String → String
  pathExists : String → Bool
  isdir : String → Bool
  listdir : String → Except String (List String)
  run : List String → CmdResult
  walkFiles : List String
  writeOk : String → String → Bool
  now : Nat

/-- `read_file` of `server.py`: returns the file text, or an
`"Error reading file: ..."` string when the read raises — it never fails.
-/
def read_file (env : Env) (path : String) : String :=
  match env.fs path with
  | some content => content
  | none => "Error reading file: " ++ env.readErr path

/-- One attempted `write_file` call: the path and content passed, and
whether `write_file` returned `True`. -/
structure FsWrite where
  path : String
  content : String
  ok : Bool
deriving DecidableEq

/-! ### Instruction data model -/

/-- A subtask of a task plan; fields mirror the JSON keys read by
`create_task_plan` (`Option` = key may be absent). -/
structure Subtask where
  id : Option String := none
  title : String := ""
  description : String := ""
  complexity : Option ℚ := none
  status : Option String := none
  dependencies : Option (List String) := none

/-- The `task_plan` object built by `create_task_plan`.
`has_dependencies` is `none` when the key is not added to the dict. -/
structure TaskPlan where
  subtasks : List Subtask
  total_subtasks : Nat
  created_at : Nat
  estimated_complexity : ℚ
  has_dependencies : Option Bool := none

/-- One entry of `gather_information`'s search result list. -/
structure SearchHit where
  path : String
  line_count : Nat

/-- Per-source `content` value: file text, directory listing, command
stdout, or search hits. -/
inductive GatherContent where
  | text (s : String)
  | listing (names : List String)
  | hits (h : List SearchHit)

/-- A caller-supplied information source (`dict.get` defaults as in
`gather_information`). -/
structure Source where
  type : Option String := none
  path : String := ""
  query : String := ""

/-- One per-source record appended to `gathered_info`. -/
structure SourceInfo where
  source_type : Option String
  source_path : String
  source_query : String
  content : Option GatherContent
  success : Bool
  error : Option String

/-- The `summary` dict of `gather_information`; `source_types` is the
insertion-ordered counting dict (its keys are the raw, possibly-`None`
type tags). -/
structure GatherSummary where
  total_sources : Nat
  successful_sources : Nat
  source_types : List (Option String × Nat)

/-- The `gathered_information` object stored on the instruction. -/
structure GatheredInformation where
  sources : List SourceInfo
  summary : GatherSummary
  gathered_at : Nat

/-- The `analysis` object stored by `analyze_and_orchestrate`. -/
structure Analysis where
  findings : List String
  recommendations : List String
  decision_points : List String
  analyzed_at : Nat

/-- Caller-supplied analysis payload (`analysis.get(..., [])`). -/
structure AnalysisInput where
  findings : List String := []
  recommendations : List String := []
  decision_points : List String := []

/-- Artifact record `{type, path, action}` of a successful step. -/
structure Artifact where
  type : String
  path : String
  action : String
deriving DecidableEq

/-- The `result` dict `execute_step` builds for the dispatched step. -/
structure StepResult where
  step_id : String
  step_type : String
  success : Bool
  output : Option String
  error : Option String
  artifacts : List Artifact
deriving DecidableEq

/-- One step of the execution plan.  A step with no `id` key would make
`execute_step`'s equality scan raise `KeyError`; plans built by
`analyze_and_orchestrate` always have ids, and the claims below only
concern steps that are found, so the lookup treats a missing id as a
non-match. -/
structure PlanStep where
  id : Option String := none
  title : String := ""
  type : Option String := none
  status : Option String := none
  result : Option StepResult := none

/-- The `execution_plan` object stored by `analyze_and_orchestrate`. -/
structure ExecutionPlan where
  steps : List PlanStep
  total_steps : Nat
  current_step : Nat
  created_at : Nat

/-- The persisted instruction document (the `final_report` object written
by `generate_final_report` is not modelled; no claim concerns it). -/
structure Instruction where
  id : String
  title : String
  description : String
  goal : String
  priority : String
  status : String
  created_at : Nat
  workflow_step : String
  task_plan : Option TaskPlan := none
  gathered_information : Option GatheredInformation := none
  analysis : Option Analysis := none
  execution_plan : Option ExecutionPlan := none

/-! ### Step 2: create_task_plan -/

/-- Response of `create_task_plan` after a successful `get_instruction`
load (the not-found early return happens before the logic modelled here).
`saved` is the document written back to disk. -/
structure PlanOutcome where
  success : Bool
  message : String
  instruction : Instruction
  saved : Option Instruction

/-- Complexity of one subtask as read by the mean computation,
`subtask.get("complexity", 1)`. -/
def subtaskComplexity (st : Subtask) : ℚ :=
  st.complexity.getD 1

/-- Id/status defaulting applied to the `i`-th subtask (0-based):
`st-<i+1>` and `"pending"` when absent. -/
def defaultSubtask (i : Nat) (st : Subtask) : Subtask :=
  { st with
    id := some (st.id.getD ("st-" ++ toString (i + 1))),
    status := some (st.status.getD "pending") }

/-- `create_task_plan` of `server.py`, after the instruction has been
loaded.  Note that the mean divides by `len(subtasks)` without a guard:
on an empty list Python raises `ZeroDivisionError`; the model's `ℚ`
division returns the junk value `0` there, and every claim about this
operation assumes a non-empty subtask list. -/
def create_task_plan (env : Env) (inst : Instruction) (subtasks : List Subtask) :
    PlanOutcome :=
  let task_plan : TaskPlan :=
    { subtasks := (List.range subtasks.length).zipWith defaultSubtask subtasks,
      total_subtasks := subtasks.length,
      created_at := env.now,
      estimated_complexity :=
        (subtasks.map subtaskComplexity).sum / (subtasks.length : ℚ),
      has_dependencies :=
        if subtasks.any (fun st => st.dependencies.isSome) then some true else none }
  let inst' : Instruction :=
    { inst with
      task_plan := some task_plan,
      status := "planned",
      workflow_step := "TASK_PLANNING" }
  { success := true,
    message := "Task plan created for instruction " ++ inst.id,
    instruction := inst',
    saved := some inst' }

/-! ### Step 3: gather_information -/

/-- Response of `gather_information` after a successful load. -/
structure GatherOutcome where
  success : Bool
  message : String
  instruction : Instruction
  summary : GatherSummary
  saved : Option Instruction

/-- Search hits of the `search` source: walk every file under the project
root, silently skipping files whose read raises, and record
`{path, line_count}` for each file whose text contains the query. -/
def searchHits (env : Env) (query : String) : List SearchHit :=
  env.walkFiles.filterMap fun p =>
    match env.fs p with
    | some content =>
        if hasOccur query.toList content.toList then
          some { path := p, line_count := countLines content.toList }
        else none
    | none => none

/-- Dispatch of one information source inside `gather_information`'s
per-source loop (including its `try`/`except`; the only modelled statement
that can raise is `os.listdir`). -/
def gatherSource (env : Env) (s : Source) : SourceInfo :=
  let base : SourceInfo :=
    { source_type := s.type, source_path := s.path, source_query := s.query,
      content := none, success := false, error := none }
  if s.type == some "file" && !(s.path == "") then
    { base with content := some (.text (read_file env s.path)), success := true }
  else if s.type == some "directory" && !(s.path == "") then
    if env.pathExists s.path && env.isdir s.path then
      match env.listdir s.path with
      | .ok names => { base with content := some (.listing names), success := true }
      | .error e => { base with error := some e }
    else
      { base with error := some ("Directory not found: " ++ s.path) }
  else if s.type == some "command" && !(s.query == "") then
    let r := env.run (pySplit s.query)
    { base with
      content := some (.text r.output),
      success := r.success,
      error := if r.success then none else some r.error }
  else if s.type == some "search" && !(s.query == "") then
    { base with content := some (.hits (searchHits env s.query)), success := true }
  else
    { base with error := some ("Unsupported source type: " ++ pyShowOpt s.type) }

/-- Increment the count of `t` in the insertion-ordered counting dict. -/
def bumpTypeCount (l : List (Option String × Nat)) (t : Option String) :
    List (Option String × Nat) :=
  match l with
  | [] => [(t, 1)]
  | (k, n) :: rest =>
    if k = t then (k, n + 1) :: rest else (k, n) :: bumpTypeCount rest t

/-- The `source_types` counting dict over the gathered records. -/
def countSourceTypes (infos : List SourceInfo) : List (Option String × Nat) :=
  infos.foldl (fun acc info => bumpTypeCount acc info.source_type) []

/-- `gather_information` of `server.py`, after the instruction has been
loaded. -/
def gather_information (env : Env) (inst : Instruction) (sources : List Source) :
    GatherOutcome :=
  let gathered_info := sources.map (gatherSource env)
  let summary : GatherSummary :=
    { total_sources := sources.length,
      successful_sources := (gathered_info.filter (·.success)).length,
      source_types := countSourceTypes gathered_info }
  let inst' : Instruction :=
    { inst with
      gathered_information :=
        some { sources := gathered_info, summary := summary, gathered_at := env.now },
      status := "information_gathered",
      workflow_step := "INFORMATION_GATHERING" }
  { success := true,
    message := "Gathered information from " ++ toString sources.length ++
      " sources for instruction " ++ inst.id,
    instruction := inst',
    summary := summary,
    saved := some inst' }

/-! ### Step 4: analyze_and_orchestrate -/

/-- Response of `analyze_and_orchestrate` after a successful load; on the
missing-precondition early return the response dict has no `instruction`
key and nothing is persisted. -/
structure AnalyzeOutcome where
  success : Bool
  message : String
  instruction : Option Instruction
  saved : Option Instruction

/-- Id/status defaulting applied to the `i`-th execution step (0-based):
`step-<i+1>` and `"pending"` when absent. -/
def defaultStep (i : Nat) (st : PlanStep) : PlanStep :=
  { st with
    id := some (st.id.getD ("step-" ++ toString (i + 1))),
    status := some (st.status.getD "pending") }

/-- `analyze_and_orchestrate` of `server.py`, after the instruction has
been loaded. -/
def analyze_and_orchestrate (env : Env) (inst : Instruction)
    (analysis : AnalysisInput) (execution_plan : List PlanStep) : AnalyzeOutcome :=
  if inst.gathered_information.isNone then
    { success := false,
      message := "No gathered information found. Complete information gathering first.",
      instruction := none,
      saved := none }
  else
    let inst' : Instruction :=
      { inst with
        analysis := some
          { findings := analysis.findings,
            recommendations := analysis.recommendations,
            decision_points := analysis.decision_points,
            analyzed_at := env.now },
        execution_plan := some
          { steps := (List.range execution_plan.length).zipWith defaultStep execution_plan,
            total_steps := execution_plan.length,
            current_step := 0,
            created_at := env.now },
        status := "analyzed",
        workflow_step := "ANALYSIS_AND_ORCHESTRATION" }
    { success := true,
      message := "Analysis completed and execution plan created with " ++
        toString execution_plan.length ++ " steps for instruction " ++ inst.id,
      instruction := some inst',
      saved := some inst' }

/-! ### Step 5: execute_step -/

/-- Caller-supplied `command` value: either a pre-split argument list or a
string to be whitespace-split. -/
inductive CmdArg where
  | ofList (args : List String)
  | ofString (s : String)

/-- Python truthiness of the optional `command` value (`if command:`). -/
def cmdTruthy : Option CmdArg → Bool
  | none => false
  | some (.ofList args) => !args.isEmpty
  | some (.ofString s) => !(s == "")

/-- A `replace`/`insert`/`delete` patch dict of a `file_modification`
step.  `start_` and `end_` model the `start` and `end` keys (`end` is a
Lean keyword). -/
structure Patch where
  type : Option String := none
  old_text : Option String := none
  new_text : Option String := none
  position : Option Int := none
  text : Option String := none
  start_ : Option Int := none
  end_ : Option Int := none

/-- The `execution_details` dict of `execute_step` (`dict.get` defaults as
in the source: `packages` defaults to `[]`, `package_manager` to `"npm"`
via `getD` at use site). -/
structure ExecutionDetails where
  file_path : Option String := none
  content : Option String := none
  patches : List Patch := []
  command : Option CmdArg := none
  packages : List String := []
  package_manager : Option String := none

/-- One iteration of the patch loop of `file_modification`: dispatch on
the patch's `type` tag with the source's truthiness/`is not None` guards;
an unrecognized patch type leaves the content unchanged. -/
def applyPatch (content : String) (p : Patch) : String :=
  if p.type == some "replace" then
    if pyTruthyOpt p.old_text && pyTruthyOpt p.new_text then
      String.mk (replaceAll content.toList (p.old_text.getD "").toList
        (p.new_text.getD "").toList)
    else content
  else if p.type == some "insert" then
    if p.position.isSome && pyTruthyOpt p.text then
      let cs := content.toList
      let k := pySliceIdx cs.length (p.position.getD 0)
      String.mk (cs.take k ++ (p.text.getD "").toList ++ cs.drop k)
    else content
  else if p.type == some "delete" then
    if p.start_.isSome && p.end_.isSome then
      let cs := content.toList
      String.mk (cs.take (pySliceIdx cs.length (p.start_.getD 0)) ++
        cs.drop (pySliceIdx cs.length (p.end_.getD 0)))
    else content
  else content

/-- The whole patch loop: patches are applied in order, each to the
content produced so far. -/
def applyPatches (content : String) (patches : List Patch) : String :=
  patches.foldl applyPatch content

/-- Outcome of the step-type dispatch (the body of `execute_step`'s
`try`): the step result, the `write_file` calls made, and whether the
unsupported-package-manager `return result` fired (the one path that
leaves `execute_step` before the result is written back). -/
structure StepRun where
  result : StepResult
  writes : List FsWrite := []
  early : Bool := false

/-- The step-type dispatch of `execute_step`. -/
def runStepType (env : Env) (step_id : String) (stype : String)
    (d : ExecutionDetails) : StepRun :=
  let r0 : StepResult :=
    { step_id := step_id, step_type := stype, success := false,
      output := none, error := none, artifacts := [] }
  if stype == "file_creation" then
    if pyTruthyOpt d.file_path && pyTruthyOpt d.content then
      let fp := d.file_path.getD ""
      let c := d.content.getD ""
      let ok := env.writeOk fp c
      { result :=
          { r0 with
            success := ok,
            output := if ok then some ("File created: " ++ fp) else none,
            error := if ok then none else some ("Failed to create file: " ++ fp),
            artifacts := if ok then [{ type := "file", path := fp, action := "created" }] else [] },
        writes := [{ path := fp, content := c, ok := ok }] }
    else
      { result := { r0 with error := some "Missing file_path or content" } }
  else if stype == "file_modification" then
    match d.file_path with
    | none =>
      -- os.path.exists(None) raises TypeError, landing in the outer except.
      { result := { r0 with
          error := some "stat: path should be string, bytes, os.PathLike or integer, not NoneType" } }
    | some fp =>
      if !(env.pathExists fp) then
        { result := { r0 with error := some ("File not found: " ++ fp) } }
      else
        let original := read_file env fp
        let newContent :=
          if pyTruthyOpt d.content then d.content.getD ""
          else applyPatches original d.patches
        let ok := env.writeOk fp newContent
        { result :=
            { r0 with
              success := ok,
              output := if ok then some ("File modified: " ++ fp) else none,
              error := if ok then none else some ("Failed to modify file: " ++ fp),
              artifacts := if ok then [{ type := "file", path := fp, action := "modified" }] else [] },
          writes := [{ path := fp, content := newContent, ok := ok }] }
  else if stype == "command_execution" then
    if cmdTruthy d.command then
      let args :=
        match d.command with
        | some (.ofList l) => l
        | some (.ofString s) => pySplit s
        | none => []
      let cr := env.run args
      { result :=
          { r0 with
            success := cr.success, output := some cr.output,
            error := if cr.success then none else some cr.error } }
    else
      { result := { r0 with error := some "Missing command" } }
  else if stype == "dependency_installation" then
    let pm := d.package_manager.getD "npm"
    if !d.packages.isEmpty then
      if pm == "npm" then
        let cr := env.run (["npm", "install", "--save"] ++ d.packages)
        { result :=
            { r0 with
              success := cr.success, output := some cr.output,
              error := if cr.success then none else some cr.error } }
      else if pm == "pip" then
        let cr := env.run (["pip", "install"] ++ d.packages)
        { result :=
            { r0 with
              success := cr.success, output := some cr.output,
              error := if cr.success then none else some cr.error } }
      else
        { result := { r0 with error := some ("Unsupported package manager: " ++ pm) },
          early := true }
    else
      { result := { r0 with error := some "No packages specified" } }
  else
    { result := { r0 with error := some ("Unsupported step type: " ++ stype) } }

/-- First step whose `id` equals `step_id`, with its index. -/
def findStep (steps : List PlanStep) (step_id : String) : Option (PlanStep × Nat) :=
  match steps with
  | [] => none
  | st :: rest =>
    if st.id == some step_id then some (st, 0)
    else (findStep rest step_id).map (fun p => (p.1, p.2 + 1))

/-- Shape of `execute_step`'s Python return dict: the uniform
`{success, message}` failure, the bare step-result dict of the
unsupported-package-manager early return, or the full
`{success, message, instruction, result}` envelope. -/
inductive ExecResponse where
  | err (message : String)
  | raw (result : StepResult)
  | done (success : Bool) (message : Option String) (instruction : Instruction)
      (result : StepResult)

/-- Full outcome of `execute_step`: the response, the `write_file` calls
performed, and the document persisted (if any). -/
structure ExecOutcome where
  response : ExecResponse
  writes : List FsWrite
  saved : Option Instruction

/-- `execute_step` of `server.py`, after the instruction has been loaded.
-/
def execute_step (env : Env) (inst : Instruction) (step_id : String)
    (d : ExecutionDetails) : ExecOutcome :=
  match inst.execution_plan with
  | none =>
    { response := .err "No execution plan found. Complete analysis and orchestration first.",
      writes := [], saved := none }
  | some plan =>
    match findStep plan.steps step_id with
    | none =>
      { response := .err ("Step " ++ step_id ++ " not found in execution plan"),
        writes := [], saved := none }
    | some (step, step_index) =>
      let stype := step.type.getD "unknown"
      let r := runStepType env step_id stype d
      if r.early then
        { response := .raw r.result, writes := r.writes, saved := none }
      else
        let steps' := plan.steps.set step_index
          { step with
            result := some r.result,
            status := some (if r.result.success then "completed" else "failed") }
        let current' :=
          if r.result.success && plan.current_step == step_index then
            step_index + 1
          else plan.current_step
        let all_completed := steps'.all (fun s => s.status == some "completed")
        let inst' : Instruction :=
          { inst with
            execution_plan := some
              { plan with steps := steps', current_step := current' },
            status := if all_completed then "completed" else inst.status,
            workflow_step := "RESULT_SYNTHESIS" }
        { response := .done r.result.success
            (if r.result.success then r.result.output else r.result.error)
            inst' r.result,
          writes := r.writes,
          saved := some inst' }

/-! ### Directory tree renderer (`tree_directory`) -/

/-- `fnmatch.fnmatch` glob matching as used by the renderer's exclusion
and inclusion patterns: `*` matches any run, `?` one character, other
characters literally.  (`fnmatch` character classes are not modelled; no
built-in exclusion pattern of `server.py` uses them.) -/
def globMatch : List Char → List Char → Bool
  | [], [] => true
  | [], _ :: _ => false
  | '*' :: ps, [] => globMatch ps []
  | '*' :: ps, c :: cs => globMatch ps (c :: cs) || globMatch ('*' :: ps) cs
  | '?' :: _, [] => false
  | '?' :: ps, _ :: cs => globMatch ps cs
  | _ :: _, [] => false
  | p :: ps, c :: cs => p == c && globMatch ps cs
termination_by pat s => pat.length + s.length
decreasing_by all_goals simp <;> omega

/-- A snapshot of the directory tree below the rendered root.  A `dir`
with `none` children models a directory whose `os.listdir` raises; a
`file` with `none` size models a file whose `os.path.getsize` raises. -/
inductive FSNode where
  | file (name : String) (size : Option Nat)
  | dir (name : String) (children : Option (List FSNode))

def FSNode.name : FSNode → String
  | .file n _ => n
  | .dir n _ => n

def FSNode.isDir : FSNode → Bool
  | .file _ _ => false
  | .dir _ _ => true

def FSNode.size : FSNode → Option Nat
  | .file _ s => s
  | .dir _ _ => none

/-- The renderer's configuration: `tree_directory`'s arguments plus the
combined exclusion list. -/
structure TreeCfg where
  max_depth : Int
  show_files : Bool
  show_hidden : Bool
  pattern : Option String
  excludes : List String

/-- The built-in `common_excludes` denylist. -/
def common_excludes : List String :=
  ["__pycache__", ".git", "node_modules", "venv", ".venv", "env", ".env",
   ".pytest_cache", ".coverage", "htmlcov", "dist", "build",
   "*.pyc", "*.pyo", "*.pyd", "*.so", "*.dylib", "*.dll", "*.exe",
   "*.class", "*.o", "*.a", "*.jar"]

/-- The renderer's running statistics dict. -/
structure Stats where
  directories : Nat
  files : Nat
  total_size : Nat
  excluded_items : Nat
deriving DecidableEq

def stats0 : Stats := ⟨0, 0, 0, 0⟩

/-- `should_exclude`: the name matches some exclusion glob. -/
def should_exclude (cfg : TreeCfg) (name : String) : Bool :=
  cfg.excludes.any fun pat => globMatch pat.toList name.toList

/-- `should_include` of the renderer, with its `excluded_items` counting:
hidden-name check, file-visibility check, exclusion globs, then the
optional inclusion pattern (each rejection counted once, short-circuit).
-/
def should_include (cfg : TreeCfg) (stats : Stats) (name : String)
    (is_dir : Bool) : Bool × Stats :=
  if !cfg.show_hidden && startsWithL ['.'] name.toList then
    (false, { stats with excluded_items := stats.excluded_items + 1 })
  else if !is_dir && !cfg.show_files then
    (false, { stats with excluded_items := stats.excluded_items + 1 })
  else if should_exclude cfg name then
    (false, { stats with excluded_items := stats.excluded_items + 1 })
  else
    match cfg.pattern with
    | some pat =>
      if pat == "" then (true, stats)
      else
        let m := globMatch pat.toList name.toList
        if m then (m, stats)
        else (m, { stats with excluded_items := stats.excluded_items + 1 })
    | none => (true, stats)

/-- Insert a node into a name-sorted list (stable, preserving first-seen
order among equal names). -/
def insertNode (x : FSNode) : List FSNode → List FSNode
  | [] => [x]
  | y :: ys => if x.name ≤ y.name then x :: y :: ys else y :: insertNode x ys

/-- `sorted(os.listdir(path))`: lexicographic, stable sort of the entry
nodes by name. -/
def sortNodes : List FSNode → List FSNode
  | [] => []
  | x :: xs => insertNode x (sortNodes xs)

/-- The renderer's pre-loop filter pass over the sorted entries, threading
the statistics through `should_include`. -/
def filterItems (cfg : TreeCfg) (stats : Stats) :
    List FSNode → List FSNode × Stats
  | [] => ([], stats)
  | item :: rest =>
    let (keep, stats') := should_include cfg stats item.name item.isDir
    let (kept, stats'') := filterItems cfg stats' rest
    (if keep then item :: kept else kept, stats'')

/-- One-decimal kibibyte rendering of `f"{size/1024:.1f}"`.  Modelled as
round-half-to-even on the exact rational `size/1024`; the float formatting
of Python agrees except on ties perturbed by binary rounding. -/
def fmtKB (size : Nat) : String :=
  let num := size * 10
  let q := num / 1024
  let r := num % 1024
  let t :=
    if 2 * r > 1024 then q + 1
    else if 2 * r < 1024 then q
    else if q % 2 = 1 then q + 1 else q
  toString (t / 10) ++ "." ++ toString (t % 10)

/-- The size suffix a file entry gets when `show_files` is on. -/
def sizeSuffix : Option Nat → String
  | some size =>
    if size < 1024 then " (" ++ toString size ++ " bytes)"
    else " (" ++ fmtKB size ++ " KB)"
  | none => " (size unknown)"

mutual

/-- `generate_tree` of `tree_directory`: render the (already listed)
entries of one directory.  `children = none` is the
`PermissionError/OSError` branch of `os.listdir`. -/
def generate_tree (cfg : TreeCfg) (children : Option (List FSNode))
    (pfx : String) (depth : Nat) (stats : Stats) : String × Stats :=
  if (depth : Int) > cfg.max_depth then ("│\n├── ...\n", stats)
  else
    match children with
    | none =>
      (pfx ++ "├── Error: Permission denied or cannot access directory\n", stats)
    | some items =>
      let fr := filterItems cfg stats (sortNodes items)
      generate_tree_loop cfg fr.1 fr.1.length 0 pfx depth fr.2
termination_by ((cfg.max_depth - depth).toNat, 1, 0)
decreasing_by
  apply Prod.Lex.right
  apply Prod.Lex.left
  omega

/-- The entry loop of `generate_tree`: stats updates, connector choice,
size suffix, and the depth-guarded recursion into subdirectories. -/
def generate_tree_loop (cfg : TreeCfg) (items : List FSNode) (count i : Nat)
    (pfx : String) (depth : Nat) (stats : Stats) : String × Stats :=
  match items with
  | [] => ("", stats)
  | item :: rest =>
    let is_last := i == count - 1
    let stats1 :=
      if item.isDir then { stats with directories := stats.directories + 1 }
      else
        { stats with
          files := stats.files + 1,
          total_size := stats.total_size + (item.size.getD 0) }
    let connector := if is_last then "└── " else "├── "
    let sizeStr := if !item.isDir && cfg.show_files then sizeSuffix item.size else ""
    let line := pfx ++ connector ++ item.name ++ sizeStr ++ "\n"
    let sub :=
      match item with
      | .dir _ ch =>
        if (depth : Int) < cfg.max_depth then
          generate_tree cfg ch (pfx ++ (if is_last then "    " else "│   "))
            (depth + 1) stats1
        else ("", stats1)
      | .file _ _ => ("", stats1)
    let tailOut := generate_tree_loop cfg rest count (i + 1) pfx depth sub.2
    (line ++ sub.1 ++ tailOut.1, tailOut.2)
termination_by ((cfg.max_depth - depth).toNat, 0, items.length)
decreasing_by
  · apply Prod.Lex.left
    omega
  · apply Prod.Lex.right
    apply Prod.Lex.right
    simp

end

/-- Result dict of `tree_directory`. -/
structure TreeResult where
  success : Bool
  tree : String
  stats : Stats
  message : String

/-- `tree_directory` of `server.py`, after the base path has been resolved
to an existing directory (the `NotFound` early return happens before the
logic modelled here): combine the exclusion lists and render from the root
whose relative path is `relative_path` and whose listing is
`rootChildren`. -/
def tree_directory (max_depth : Int) (show_files show_hidden : Bool)
    (pattern : Option String) (exclude_common : Bool)
    (custom_excludes : Option (List String)) (relative_path : String)
    (rootChildren : Option (List FSNode)) : TreeResult :=
  let excludes :=
    (if exclude_common then common_excludes else []) ++ custom_excludes.getD []
  let cfg : TreeCfg :=
    { max_depth := max_depth, show_files := show_files,
      show_hidden := show_hidden, pattern := pattern, excludes := excludes }
  let out := generate_tree cfg rootChildren "" 0 stats0
  { success := true,
    tree := relative_path ++ "\n" ++ out.1,
    stats := out.2,
    message := "Generated tree for " ++ relative_path ++ ": " ++
      toString out.2.directories ++ " directories, " ++ toString out.2.files ++
      " files, " ++ toString out.2.excluded_items ++ " items filtered" }

/-! ### Concrete fixtures used by witnesses and counterexamples -/

/-- Environment in which every external effect fails. -/
def envDeny : Env :=
  { fs := fun _ => none,
    readErr := fun p => "[Errno 2] No such file or directory: " ++ p,
    pathExists := fun _ => false,
    isdir := fun _ => false,
    listdir := fun _ => .error "PermissionError",
    run := fun _ => { success := false, output := "", error := "not found", returncode := 127 },
    walkFiles := [],
    writeOk := fun _ _ => false,
    now := 1700000000 }

/-- Environment in which every external effect succeeds. -/
def envAllow : Env :=
  { fs := fun _ => some "hello",
    readErr := fun _ => "",
    pathExists := fun _ => true,
    isdir := fun _ => true,
    listdir := fun _ => .ok [],
    run := fun _ => { success := true, output := "done", error := "", returncode := 0 },
    walkFiles := [],
    writeOk := fun _ _ => true,
    now := 1700000000 }

/-- A freshly created instruction document. -/
def instBase : Instruction :=
  { id := "abc12345", title := "t", description := "d", goal := "g",
    priority := "medium", status := "created", created_at := 1700000000,
    workflow_step := "USER_INSTRUCTION" }

/-- A one-step execution plan whose step is a `command_execution`. -/
def stepCmd : PlanStep :=
  { id := some "step-1", title := "run", type := some "command_execution",
    status := some "pending" }

def planExec : ExecutionPlan :=
  { steps := [stepCmd], total_steps := 1, current_step := 0,
    created_at := 1700000000 }

/-- An instruction that has reached the execution phase. -/
def instExec : Instruction :=
  { instBase with
    status := "analyzed",
    workflow_step := "ANALYSIS_AND_ORCHESTRATION",
    execution_plan := some planExec }

/-- Execution details invoking a pre-split command. -/
def dCmd : ExecutionDetails :=
  { command := some (.ofList ["ls"]) }

/-- A `dependency_installation` variant of the one-step plan, and details
naming an unsupported manager. -/
def stepDep : PlanStep :=
  { stepCmd with type := some "dependency_installation" }

def planDep : ExecutionPlan :=
  { planExec with steps := [stepDep] }

def instDep : Instruction :=
  { instExec with execution_plan := some planDep }

def dDep : ExecutionDetails :=
  { packages := ["serde"], package_manager := some "cargo" }

/-- The `replace` patch used by the C7 witness. -/
def patchRep : Patch :=
  { type := some "replace", old_text := some "ab", new_text := some "XY" }

/-- Replace every subdirectory's listing by an empty one, keeping names,
kinds and file sizes: the part of a snapshot the renderer can see below a
directory it does not recurse into. -/
def pruneNode : FSNode → FSNode
  | .file n s => .file n s
  | .dir n _ => .dir n (some [])

def pruneList (l : List FSNode) : List FSNode :=
  l.map pruneNode

/-- C8 counterexample input: `c` sits at depth 2, strictly deeper than
`max_depth = 1`. -/
def deepChildren : List FSNode :=
  [.dir "a" (some [.dir "b" (some [.dir "c" (some [])])])]

/-- Configuration and items for the C8 witness. -/
def cfgW : TreeCfg :=
  { max_depth := 1, show_files := true, show_hidden := false,
    pattern := none, excludes := [] }

def itemsW : List FSNode :=
  [.dir "x" (some [.file "y" (some 3)])]

/-! ### C2 — analyze without gathered information -/

/-- C2: on an instruction without `gathered_information`,
`analyze_and_orchestrate` returns the precondition failure and persists
nothing, so the stored document is unchanged. -/
theorem analyze_without_gathered_information_fails_without_mutation
    (env : Env) (inst : Instruction) (analysis : AnalysisInput)
    (execution_plan : List PlanStep)
    (h : inst.gathered_information = none) :
    (analyze_and_orchestrate env inst analysis execution_plan).success = false ∧
    (analyze_and_orchestrate env inst analysis execution_plan).message =
      "No gathered information found. Complete information gathering first." ∧
    (analyze_and_orchestrate env inst analysis execution_plan).saved = none := by
  simp [analyze_and_orchestrate, h]

/-- Witness for C2 at a concrete instruction. -/
theorem analyze_without_gathered_information_fails_without_mutation_witness :
    (analyze_and_orchestrate envDeny instBase {} []).success = false ∧
    (analyze_and_orchestrate envDeny instBase {} []).message =
      "No gathered information found. Complete information gathering first." ∧
    (analyze_and_orchestrate envDeny instBase {} []).saved = none :=
  analyze_without_gathered_information_fails_without_mutation envDeny instBase {} [] rfl

/-! ### C4 — estimated_complexity is the arithmetic mean -/

/-- C4: for a non-empty subtask list, the created plan's
`estimated_complexity` is the arithmetic mean of the subtasks'
complexities, counting a missing `complexity` key as `1` (on an empty list
the unguarded division raises `ZeroDivisionError` in Python, hence the
hypothesis). -/
theorem create_task_plan_estimated_complexity_mean
    (env : Env) (inst : Instruction) (subtasks : List Subtask)
    (h : 1 ≤ subtasks.length) :
    ∃ tp : TaskPlan,
      ((create_task_plan env inst subtasks).instruction).task_plan = some tp ∧
      (create_task_plan env inst subtasks).saved =
        some ((create_task_plan env inst subtasks).instruction) ∧
      tp.estimated_complexity =
        (subtasks.map (fun st => st.complexity.getD 1)).sum / (subtasks.length : ℚ) :=
  ⟨_, rfl, rfl, rfl⟩

/-- Witness for C4: complexities 3 and missing (counted as 1) average to 2.
-/
theorem create_task_plan_estimated_complexity_mean_witness :
    (1 ≤ ([{ complexity := some 3 }, { title := "b" }] : List Subtask).length) ∧
    ∃ tp : TaskPlan,
      ((create_task_plan envDeny instBase
          [{ complexity := some 3 }, { title := "b" }]).instruction).task_plan = some tp ∧
      (create_task_plan envDeny instBase
          [{ complexity := some 3 }, { title := "b" }]).saved =
        some ((create_task_plan envDeny instBase
          [{ complexity := some 3 }, { title := "b" }]).instruction) ∧
      tp.estimated_complexity = 2 := by
  refine ⟨by decide, ?_⟩
  obtain ⟨tp, h1, h2, h3⟩ := create_task_plan_estimated_complexity_mean envDeny instBase
    [{ complexity := some 3 }, { title := "b" }] (by decide)
  refine ⟨tp, h1, h2, ?_⟩
  rw [h3]
  norm_num

/-! ### C5 — has_dependencies (corrected) -/

/-- C5 counterexample: a single subtask carrying an *empty* `dependencies`
list still makes `create_task_plan` set `has_dependencies = True`, because
the source only tests key presence (`"dependencies" in subtask`), while
the claim requires `has_dependencies` not to be true when every
dependencies list is empty. -/
theorem has_dependencies_true_for_empty_dependencies_list :
    ∃ tp : TaskPlan,
      ((create_task_plan envDeny instBase
          [{ title := "a", dependencies := some [] }]).instruction).task_plan = some tp ∧
      tp.has_dependencies = some true ∧
      tp.subtasks.all (fun st => st.dependencies.getD [] == []) = true := by
  exact ⟨_, rfl, rfl, rfl⟩

/-- C5 amended: `has_dependencies` is set (to `true`) iff at least one
subtask has a `dependencies` key at all — even an empty list counts — and
the key is absent from the plan otherwise. -/
theorem has_dependencies_iff_dependencies_key_present
    (env : Env) (inst : Instruction) (subtasks : List Subtask) :
    ∃ tp : TaskPlan,
      ((create_task_plan env inst subtasks).instruction).task_plan = some tp ∧
      (tp.has_dependencies = some true ↔
        subtasks.any (fun st => st.dependencies.isSome) = true) ∧
      (tp.has_dependencies = none ↔
        subtasks.any (fun st => st.dependencies.isSome) = false) := by
  refine ⟨_, rfl, ?_, ?_⟩ <;>
    · simp only [create_task_plan]
      split <;> simp_all [Option.isSome_iff_ne_none]

/-! ### C3 — gather file source success flag (corrected) -/

/-- C3 counterexample: with a filesystem on which every read raises, a
`file` source still yields `success = True`; the failure is only visible
as the `"Error reading file: ..."` text stored in `content`
(`read_file` swallows the exception, and `gather_information`
unconditionally sets `success = True` on that branch). -/
theorem gather_file_source_success_despite_failed_read :
    (gatherSource envDeny { type := some "file", path := "missing.txt" }).success = true ∧
    envDeny.fs "missing.txt" = none ∧
    (gatherSource envDeny { type := some "file", path := "missing.txt" }).content =
      some (.text ("Error reading file: [Errno 2] No such file or directory: missing.txt")) :=
  ⟨rfl, rfl, rfl⟩

/-- C3 amended: the per-source record of a `file` source with a non-empty
path always has `success = true`, whether or not the underlying read
succeeds; the content is whatever `read_file` returns (file text, or the
error string on a failed read), and no per-source `error` is recorded. -/
theorem gather_file_source_always_success (env : Env) (s : Source)
    (h1 : s.type = some "file") (h2 : s.path ≠ "") :
    (gatherSource env s).success = true ∧
    (gatherSource env s).content = some (.text (read_file env s.path)) ∧
    (gatherSource env s).error = none := by
  simp [gatherSource, h1, h2]

/-- Witness for the amended C3 at a concrete failing read. -/
theorem gather_file_source_always_success_witness :
    (some "file" = some "file" ∧ "missing.txt" ≠ "") ∧
    (gatherSource envDeny { type := some "file", path := "missing.txt" }).success = true ∧
    (gatherSource envDeny { type := some "file", path := "missing.txt" }).content =
      some (.text (read_file envDeny "missing.txt")) ∧
    (gatherSource envDeny { type := some "file", path := "missing.txt" }).error = none :=
  ⟨⟨rfl, by decide⟩,
    gather_file_source_always_success envDeny
      { type := some "file", path := "missing.txt" } rfl (by decide)⟩

/-! ### C9 — gather_information never fails overall -/

/-- C9: for every loaded instruction and every source list,
`gather_information` returns overall success, persists the document with
`status = information_gathered` and
`workflow_step = INFORMATION_GATHERING`, and per-source failures only show
up in the per-source records and the `successful_sources` count. -/
theorem gather_information_always_succeeds
    (env : Env) (inst : Instruction) (sources : List Source) :
    (gather_information env inst sources).success = true ∧
    ∃ inst' : Instruction,
      (gather_information env inst sources).saved = some inst' ∧
      (gather_information env inst sources).instruction = inst' ∧
      inst'.status = "information_gathered" ∧
      inst'.workflow_step = "INFORMATION_GATHERING" ∧
      ∃ gi : GatheredInformation,
        inst'.gathered_information = some gi ∧
        gi.sources = sources.map (gatherSource env) ∧
        gi.summary.successful_sources =
          ((sources.map (gatherSource env)).filter (·.success)).length :=
  ⟨rfl, _, rfl, rfl, rfl, rfl, _, rfl, rfl, rfl⟩

/-! ### C10 — file_creation with empty file_path or content -/

/-- C10: a `file_creation` step whose `file_path` or `content` is the
empty string fails with `Missing file_path or content` without invoking
`write_file` at all, exactly as if the field were absent (so a file with
empty content can never be created through this step type). -/
theorem file_creation_empty_fields_rejected
    (env : Env) (step_id : String) (d : ExecutionDetails)
    (h : d.file_path = some "" ∨ d.content = some "") :
    (runStepType env step_id "file_creation" d).result.success = false ∧
    (runStepType env step_id "file_creation" d).result.error =
      some "Missing file_path or content" ∧
    (runStepType env step_id "file_creation" d).writes = [] ∧
    runStepType env step_id "file_creation" d =
      runStepType env step_id "file_creation"
        { d with file_path := none, content := none } := by
  have hfalse : ¬(pyTruthyOpt d.file_path = true ∧ pyTruthyOpt d.content = true) := by
    rcases h with h | h <;> rw [h] <;> simp [pyTruthyOpt]
  refine ⟨?_, ?_, ?_, ?_⟩ <;>
    simp [runStepType, hfalse, show pyTruthyOpt none = false from rfl]

/-- Witness for C10: empty content at a concrete step. -/
theorem file_creation_empty_fields_rejected_witness :
    (({ file_path := some "out.txt", content := some "" } : ExecutionDetails).file_path = some "" ∨
      ({ file_path := some "out.txt", content := some "" } : ExecutionDetails).content = some "") ∧
    (runStepType envAllow "step-1" "file_creation"
        { file_path := some "out.txt", content := some "" }).result.success = false ∧
    (runStepType envAllow "step-1" "file_creation"
        { file_path := some "out.txt", content := some "" }).result.error =
      some "Missing file_path or content" ∧
    (runStepType envAllow "step-1" "file_creation"
        { file_path := some "out.txt", content := some "" }).writes = [] ∧
    runStepType envAllow "step-1" "file_creation"
        { file_path := some "out.txt", content := some "" } =
      runStepType envAllow "step-1" "file_creation"
        { ({ file_path := some "out.txt", content := some "" } : ExecutionDetails) with
          file_path := none, content := none } :=
  ⟨Or.inr rfl,
    file_creation_empty_fields_rejected envAllow "step-1"
      { file_path := some "out.txt", content := some "" } (Or.inr rfl)⟩

/-! ### C6 — unsupported package manager early return -/

/-- Every dispatch branch that sets the early-return flag leaves the step
result unsuccessful (the flag is only set on the unsupported-manager
path, whose result is the untouched `success = False` template). -/
theorem runStepType_early_not_success (env : Env) (step_id stype : String)
    (d : ExecutionDetails) (h : (runStepType env step_id stype d).early = true) :
    (runStepType env step_id stype d).result.success = false := by
  revert h
  simp only [runStepType]
  repeat' split
  all_goals simp

/-- C6: `execute_step` on a found `dependency_installation` step with a
non-empty package list and a manager other than `npm`/`pip` returns the
bare `Unsupported package manager` result dict immediately: no
`write_file` call is made and nothing is persisted, so the targeted step's
`result`/`status` fields and the whole stored document are unchanged. -/
theorem dependency_installation_unsupported_manager_early_return
    (env : Env) (inst : Instruction) (step_id : String) (d : ExecutionDetails)
    (plan : ExecutionPlan) (step : PlanStep) (i : Nat) (pm : String)
    (hplan : inst.execution_plan = some plan)
    (hfind : findStep plan.steps step_id = some (step, i))
    (htype : step.type = some "dependency_installation")
    (hpk : d.packages ≠ [])
    (hpm : d.package_manager.getD "npm" = pm)
    (hnpm : pm ≠ "npm") (hpip : pm ≠ "pip") :
    (execute_step env inst step_id d).saved = none ∧
    (execute_step env inst step_id d).writes = [] ∧
    (execute_step env inst step_id d).response = .raw
      { step_id := step_id, step_type := "dependency_installation",
        success := false, output := none,
        error := some ("Unsupported package manager: " ++ pm), artifacts := [] } := by
  have hrun : runStepType env step_id "dependency_installation" d =
      { result :=
          { step_id := step_id, step_type := "dependency_installation",
            success := false, output := none,
            error := some ("Unsupported package manager: " ++ pm), artifacts := [] },
        writes := [], early := true } := by
    simp [runStepType, hpm, hnpm, hpip, hpk]
  refine ⟨?_, ?_, ?_⟩ <;>
    simp [execute_step, hplan, hfind, htype, hrun]


/-- Witness for C6: a concrete `cargo` manager request against the
one-step plan. -/
theorem dependency_installation_unsupported_manager_early_return_witness :
    (execute_step envAllow instDep "step-1" dDep).saved = none ∧
    (execute_step envAllow instDep "step-1" dDep).writes = [] ∧
    (execute_step envAllow instDep "step-1" dDep).response = .raw
      { step_id := "step-1", step_type := "dependency_installation",
        success := false, output := none,
        error := some ("Unsupported package manager: " ++ "cargo"), artifacts := [] } :=
  dependency_installation_unsupported_manager_early_return envAllow instDep
    "step-1" dDep planDep stepDep 0 "cargo"
    rfl rfl rfl (by decide) rfl (by decide) (by decide)

/-! ### C1 — current_step pointer advancement -/

/-- C1: for an instruction with an execution plan and a step found by id,
the `current_step` pointer of the plan as stored on disk after the call
advances by exactly one iff the executed step's index equals the old
pointer and the dispatched execution succeeded; in every other case
(failure, out-of-order or re-executed step, or the non-persisting early
return) the stored pointer is unchanged. -/
theorem execute_step_advances_pointer_iff
    (env : Env) (inst : Instruction) (step_id : String) (d : ExecutionDetails)
    (plan : ExecutionPlan) (step : PlanStep) (i : Nat)
    (hplan : inst.execution_plan = some plan)
    (hfind : findStep plan.steps step_id = some (step, i)) :
    ∃ plan' : ExecutionPlan,
      (match (execute_step env inst step_id d).saved with
        | some inst' => inst'.execution_plan
        | none => inst.execution_plan) = some plan' ∧
      plan'.current_step =
        (if (runStepType env step_id (step.type.getD "unknown") d).result.success = true
            ∧ plan.current_step = i
         then plan.current_step + 1 else plan.current_step) := by
  by_cases hearly : (runStepType env step_id (step.type.getD "unknown") d).early = true
  · have hsucc := runStepType_early_not_success env step_id (step.type.getD "unknown") d hearly
    refine ⟨plan, ?_, ?_⟩
    · simp [execute_step, hplan, hfind, hearly]
    · simp [hsucc]
  · refine ⟨{ plan with
        steps := plan.steps.set i { step with
          result := some (runStepType env step_id (step.type.getD "unknown") d).result,
          status := some (if (runStepType env step_id (step.type.getD "unknown") d).result.success
            then "completed" else "failed") },
        current_step :=
          if (runStepType env step_id (step.type.getD "unknown") d).result.success
              && plan.current_step == i
          then i + 1 else plan.current_step }, ?_, ?_⟩
    · simp only [execute_step, hplan, hfind]
      rw [if_neg hearly]
    · by_cases hs : (runStepType env step_id (step.type.getD "unknown") d).result.success = true
      · by_cases hi : plan.current_step = i
        · simp [hs, hi]
        · simp [hs, hi]
      · have hs' : (runStepType env step_id (step.type.getD "unknown") d).result.success = false := by
          simpa using hs
        simp [hs', hs]

/-- Witness for C1: a successful `command_execution` of the pointer step
advances the stored pointer from 0 to 1. -/
theorem execute_step_advances_pointer_iff_witness :
    (∃ plan' : ExecutionPlan,
      (match (execute_step envAllow instExec "step-1" dCmd).saved with
        | some inst' => inst'.execution_plan
        | none => instExec.execution_plan) = some plan' ∧
      plan'.current_step =
        (if (runStepType envAllow "step-1" (stepCmd.type.getD "unknown") dCmd).result.success = true
            ∧ planExec.current_step = 0
         then planExec.current_step + 1 else planExec.current_step)) ∧
    (if (runStepType envAllow "step-1" (stepCmd.type.getD "unknown") dCmd).result.success = true
        ∧ planExec.current_step = 0
     then planExec.current_step + 1 else planExec.current_step) = 1 := by
  refine ⟨execute_step_advances_pointer_iff envAllow instExec "step-1" dCmd
    planExec stepCmd 0 rfl rfl, ?_⟩
  simp [runStepType, envAllow, stepCmd, planExec, dCmd, cmdTruthy]

/-! ### C7 — replace patches substitute every occurrence -/

/-- Non-empty strings have non-empty character lists. -/
theorem strToList_ne_nil {s : String} (h : s ≠ "") : s.toList ≠ [] := by
  intro hnil
  apply h
  cases s with
  | mk data =>
    simp [String.toList, String.data] at hnil
    simp [hnil]

/-- `replaceAll` on the empty content is empty. -/
theorem replaceAll_nil (old new : List Char) : replaceAll [] old new = [] := by
  rw [replaceAll.eq_def]
  split <;> simp_all [startsWithL]

/-- When `old` is not a prefix of the content, `replaceAll` keeps the head
character and continues. -/
theorem replaceAll_cons_no_match (c : Char) (cs old new : List Char)
    (h : startsWithL old (c :: cs) = false) :
    replaceAll (c :: cs) old new = c :: replaceAll cs old new := by
  rw [replaceAll.eq_def,
    if_neg (show ¬(old ≠ [] ∧ startsWithL old (c :: cs) = true) by simp [h])]

/-- When the content starts with `old`, `replaceAll` substitutes `new` and
keeps scanning after the match — the scan does not stop at the first
occurrence. -/
theorem replaceAll_head (s old new : List Char) (h : old ≠ []) :
    replaceAll (old ++ s) old new = new ++ replaceAll s old new := by
  rw [replaceAll.eq_def, if_pos]
  · congr 1
    have hd : (old ++ s).drop old.length = s := by simp
    rw [hd]
  · refine ⟨h, ?_⟩
    simp [startsWithL]

/-- Content without an occurrence of `old` is left unchanged. -/
theorem replaceAll_not_occur (s old new : List Char)
    (h : hasOccur old s = false) :
    replaceAll s old new = s := by
  induction s with
  | nil => exact replaceAll_nil old new
  | cons c cs ih =>
    have h2 : startsWithL old (c :: cs) = false ∧ hasOccur old cs = false := by
      simpa [hasOccur, Bool.or_eq_false_iff] using h
    rw [replaceAll_cons_no_match c cs old new h2.1, ih h2.2]

/-- A left segment in which no occurrence of `old` starts is copied
verbatim by the scan. -/
theorem replaceAll_append_left (a t old new : List Char)
    (ha : ∀ i, i < a.length → startsWithL old ((a ++ t).drop i) = false) :
    replaceAll (a ++ t) old new = a ++ replaceAll t old new := by
  induction a with
  | nil => simp
  | cons c a' ih =>
    have h0 : startsWithL old (c :: (a' ++ t)) = false := by
      have := ha 0 (by simp)
      simpa using this
    rw [List.cons_append, replaceAll_cons_no_match _ _ _ _ h0]
    rw [ih (fun i hi => by
      have := ha (i + 1) (by simpa using hi)
      simpa using this)]
    simp

/-- C7: a `replace` patch with non-empty `old_text` and `new_text`
substitutes `new_text` for *every* occurrence of `old_text` in the current
content (exhibited on a content with two occurrences, whole-content
substring semantics rather than first-occurrence-only), the patch list is
applied sequentially so each later patch sees the earlier patches'
output, and for a `file_modification` step without full-content
replacement the patched content is exactly what is handed to
`write_file`. -/
theorem file_modification_replace_patch_all_occurrences
    (p : Patch) (so sn : String) (a b c : List Char)
    (hty : p.type = some "replace")
    (hold : p.old_text = some so) (hnew : p.new_text = some sn)
    (hso : so ≠ "") (hsn : sn ≠ "")
    (ha : ∀ i, i < a.length →
      startsWithL so.toList
        ((a ++ (so.toList ++ (b ++ (so.toList ++ c)))).drop i) = false)
    (hb : ∀ j, j < b.length →
      startsWithL so.toList ((b ++ (so.toList ++ c)).drop j) = false)
    (hc : hasOccur so.toList c = false) :
    (applyPatch (String.mk (a ++ (so.toList ++ (b ++ (so.toList ++ c))))) p).toList =
      a ++ (sn.toList ++ (b ++ (sn.toList ++ c))) ∧
    (∀ (content : String) (q : Patch) (qs : List Patch),
      applyPatches content (q :: qs) = applyPatches (applyPatch content q) qs) ∧
    (∀ (env : Env) (sid fp : String) (dd : ExecutionDetails),
      dd.file_path = some fp → env.pathExists fp = true →
      pyTruthyOpt dd.content = false →
      (runStepType env sid "file_modification" dd).writes =
        [{ path := fp, content := applyPatches (read_file env fp) dd.patches,
           ok := env.writeOk fp (applyPatches (read_file env fp) dd.patches) }]) := by
  refine ⟨?_, fun content q qs => rfl, ?_⟩
  · have hsoL : so.toList ≠ [] := strToList_ne_nil hso
    have happ : applyPatch (String.mk (a ++ (so.toList ++ (b ++ (so.toList ++ c))))) p =
        String.mk (replaceAll (a ++ (so.toList ++ (b ++ (so.toList ++ c))))
          so.toList sn.toList) := by
      simp [applyPatch, hty, hold, hnew, pyTruthyOpt, hso, hsn]
    rw [happ]
    show replaceAll (a ++ (so.toList ++ (b ++ (so.toList ++ c)))) so.toList sn.toList =
      a ++ (sn.toList ++ (b ++ (sn.toList ++ c)))
    rw [replaceAll_append_left _ _ _ _ ha, replaceAll_head _ _ _ hsoL,
      replaceAll_append_left _ _ _ _ hb, replaceAll_head _ _ _ hsoL,
      replaceAll_not_occur _ _ _ hc]
  · intro env sid fp dd h1 h2 h3
    simp [runStepType, h1, h2, h3]


/-- Witness for C7: replacing `ab` by `XY` in `zabqabw` rewrites both
occurrences, giving `zXYqXYw`. -/
theorem file_modification_replace_patch_all_occurrences_witness :
    (applyPatch (String.mk ("z".toList ++ ("ab".toList ++ ("q".toList ++
        ("ab".toList ++ "w".toList))))) patchRep).toList =
      "z".toList ++ ("XY".toList ++ ("q".toList ++ ("XY".toList ++ "w".toList))) ∧
    (∀ (content : String) (q : Patch) (qs : List Patch),
      applyPatches content (q :: qs) = applyPatches (applyPatch content q) qs) ∧
    (∀ (env : Env) (sid fp : String) (dd : ExecutionDetails),
      dd.file_path = some fp → env.pathExists fp = true →
      pyTruthyOpt dd.content = false →
      (runStepType env sid "file_modification" dd).writes =
        [{ path := fp, content := applyPatches (read_file env fp) dd.patches,
           ok := env.writeOk fp (applyPatches (read_file env fp) dd.patches) }]) :=
  file_modification_replace_patch_all_occurrences patchRep "ab" "XY"
    "z".toList "q".toList "w".toList rfl rfl rfl (by decide) (by decide)
    (by decide) (by decide) (by decide)

/-! ### C8 — depth bound of the tree renderer (corrected) -/


theorem pruneNode_name (x : FSNode) : (pruneNode x).name = x.name := by
  cases x <;> rfl

theorem pruneNode_isDir (x : FSNode) : (pruneNode x).isDir = x.isDir := by
  cases x <;> rfl

theorem pruneNode_size (x : FSNode) : (pruneNode x).size = x.size := by
  cases x <;> rfl

theorem insertNode_prune (x : FSNode) (l : List FSNode) :
    insertNode (pruneNode x) (pruneList l) = pruneList (insertNode x l) := by
  induction l with
  | nil => rfl
  | cons y ys ih =>
    simp only [pruneList, List.map, insertNode, pruneNode_name]
    by_cases hle : x.name ≤ y.name
    · simp [hle, pruneList]
    · simp only [hle, if_false]
      simp only [pruneList] at ih
      rw [ih]
      simp [List.map]

theorem sortNodes_prune (l : List FSNode) :
    sortNodes (pruneList l) = pruneList (sortNodes l) := by
  induction l with
  | nil => rfl
  | cons x xs ih =>
    simp only [pruneList, List.map, sortNodes]
    simp only [pruneList] at ih
    rw [ih]
    have hins := insertNode_prune x (sortNodes xs)
    simp only [pruneList] at hins
    rw [hins]

theorem filterItems_prune (cfg : TreeCfg) (stats : Stats) (l : List FSNode) :
    filterItems cfg stats (pruneList l) =
      (pruneList (filterItems cfg stats l).1, (filterItems cfg stats l).2) := by
  induction l generalizing stats with
  | nil => rfl
  | cons x xs ih =>
    simp only [pruneList, List.map, filterItems, pruneNode_name, pruneNode_isDir]
    simp only [pruneList] at ih
    rw [ih]
    rcases should_include cfg stats x.name x.isDir with ⟨keep, stats'⟩
    cases keep <;> simp [pruneList]

theorem pruneList_length (l : List FSNode) : (pruneList l).length = l.length := by
  simp [pruneList]

theorem generate_tree_loop_no_recursion (cfg : TreeCfg) (items : List FSNode)
    (count i : Nat) (pfx : String) (depth : Nat) (stats : Stats)
    (h : ¬ ((depth : Int) < cfg.max_depth)) :
    generate_tree_loop cfg (pruneList items) count i pfx depth stats =
      generate_tree_loop cfg items count i pfx depth stats := by
  induction items generalizing i stats with
  | nil => rfl
  | cons x xs ih =>
    rw [generate_tree_loop.eq_def]
    conv_rhs => rw [generate_tree_loop.eq_def]
    simp only [pruneList, List.map]
    cases x with
    | file n s =>
      simp only [pruneNode, FSNode.isDir, FSNode.name, FSNode.size]
      simp only [pruneList] at ih
      rw [ih]
    | dir n ch =>
      simp only [pruneNode, FSNode.isDir, FSNode.name, FSNode.size]
      rw [if_neg h, if_neg h]
      simp only [pruneList] at ih
      rw [ih]


/-- C8 counterexample: with `max_depth = 1`, the directory `c` nested
deeper than `max_depth` produces *no* ellipsis marker anywhere in the
output — it is silently invisible (it is neither recursed into nor
marked), contradicting the claimed ellipsis rendering. -/
theorem deep_directory_renders_no_ellipsis :
    (tree_directory 1 true false none false none "." (some deepChildren)).tree =
      ".\n└── a\n    └── b\n" ∧
    hasOccur "...".toList
      ((tree_directory 1 true false none false none "." (some deepChildren)).tree).toList =
      false ∧
    hasOccur "c".toList
      ((tree_directory 1 true false none false none "." (some deepChildren)).tree).toList =
      false := by
  have h1 : (tree_directory 1 true false none false none "." (some deepChildren)).tree =
      ".\n└── a\n    └── b\n" := by
    simp [tree_directory, generate_tree, generate_tree_loop, deepChildren,
      filterItems, sortNodes, insertNode, should_include, should_exclude,
      stats0, FSNode.name, FSNode.isDir, FSNode.size, startsWithL, sizeSuffix]
  refine ⟨h1, ?_, ?_⟩ <;> rw [h1] <;> decide

/-- C8 amended: the renderer never recurses past `max_depth`, but renders
the ellipsis marker only when a call *starts* beyond the bound
(`depth > max_depth`, reachable from the top only when `max_depth` is
negative); a directory *at* the bound is listed with its contents ignored
and no marker — the output and statistics at `depth = max_depth` are
unchanged when every subdirectory's listing is replaced by an empty one.
-/
theorem generate_tree_depth_bound (cfg : TreeCfg) (children : Option (List FSNode))
    (pfx : String) (depth : Nat) (stats : Stats) :
    ((depth : Int) > cfg.max_depth →
      generate_tree cfg children pfx depth stats = ("│\n├── ...\n", stats)) ∧
    ((depth : Int) = cfg.max_depth →
      ∀ items : List FSNode,
        generate_tree cfg (some (pruneList items)) pfx depth stats =
          generate_tree cfg (some items) pfx depth stats) := by
  constructor
  · intro h
    rw [generate_tree.eq_def, if_pos h]
  · intro h items
    have hnotgt : ¬ ((depth : Int) > cfg.max_depth) := by omega
    have hnotlt : ¬ ((depth : Int) < cfg.max_depth) := by omega
    rw [generate_tree.eq_def]
    conv_rhs => rw [generate_tree.eq_def]
    rw [if_neg hnotgt, if_neg hnotgt]
    show generate_tree_loop cfg (filterItems cfg stats (sortNodes (pruneList items))).1
        (filterItems cfg stats (sortNodes (pruneList items))).1.length 0 pfx depth
        (filterItems cfg stats (sortNodes (pruneList items))).2 =
      generate_tree_loop cfg (filterItems cfg stats (sortNodes items)).1
        (filterItems cfg stats (sortNodes items)).1.length 0 pfx depth
        (filterItems cfg stats (sortNodes items)).2
    rw [sortNodes_prune, filterItems_prune]
    simp only [pruneList_length]
    exact generate_tree_loop_no_recursion cfg _ _ 0 pfx depth _ hnotlt


/-- Witness for the amended C8: starting past the bound yields the bare
ellipsis marker, and at the bound the output ignores subdirectory
contents. -/
theorem generate_tree_depth_bound_witness :
    generate_tree cfgW (some []) "" 2 stats0 = ("│\n├── ...\n", stats0) ∧
    generate_tree cfgW (some (pruneList itemsW)) "" 1 stats0 =
      generate_tree cfgW (some itemsW) "" 1 stats0 :=
  ⟨(generate_tree_depth_bound cfgW (some []) "" 2 stats0).1 (by decide),
   (generate_tree_depth_bound cfgW (some []) "" 1 stats0).2 (by decide) itemsW⟩
